import Mathlib

/-!
Shallow embedding of the crab-pot CLI client (src/api/main.py,
src/api/client.py, src/api/python-mig/main.py): a command-line client for a
remote log-schema registry.  JSON values and Python objects are modelled by
`PyVal`, commands by pure functions from their arguments and an HTTP-response
oracle to the list of observable events (requests issued, lines printed,
tables and JSON documents rendered) together with the process exit code.
-/

/-- A JSON / Python value as the client manipulates it: the decoded body of a
response, a schema-definition fragment, or a log payload. -/
inductive PyVal where
  | str (s : String)
  | int (n : Int)
  | bool (b : Bool)
  | null
  | list (xs : List PyVal)
  | dict (fields : List (String × PyVal))

/- Python `==` on `PyVal` (used by `in` on a `required` list). -/
mutual
def beqPyVal : PyVal → PyVal → Bool
  | PyVal.str a, PyVal.str b => a == b
  | PyVal.int a, PyVal.int b => a == b
  | PyVal.bool a, PyVal.bool b => a == b
  | PyVal.null, PyVal.null => true
  | PyVal.list xs, PyVal.list ys => beqPyList xs ys
  | PyVal.dict fs, PyVal.dict gs => beqPyFields fs gs
  | _, _ => false

def beqPyList : List PyVal → List PyVal → Bool
  | [], [] => true
  | x :: xs, y :: ys => beqPyVal x y && beqPyList xs ys
  | _, _ => false

def beqPyFields : List (String × PyVal) → List (String × PyVal) → Bool
  | [], [] => true
  | (k, v) :: fs, (l, w) :: gs => k == l && beqPyVal v w && beqPyFields fs gs
  | _, _ => false
end

instance : BEq PyVal := ⟨beqPyVal⟩

/- Python `repr`, restricted to the payload shapes the client exchanges
(strings without quote or control characters, integers, booleans, null,
lists, string-keyed dicts).  `str()` of a dict — used for the log-data
preview — is exactly this. -/
mutual
def pyRepr : PyVal → String
  | PyVal.str s => "'" ++ s ++ "'"
  | PyVal.int n => toString n
  | PyVal.bool b => if b then "True" else "False"
  | PyVal.null => "None"
  | PyVal.list xs => "[" ++ String.intercalate ", " (pyReprList xs) ++ "]"
  | PyVal.dict fs => "\x7b" ++ String.intercalate ", " (pyReprFields fs) ++ "\x7d"

def pyReprList : List PyVal → List String
  | [] => []
  | x :: xs => pyRepr x :: pyReprList xs

def pyReprFields : List (String × PyVal) → List String
  | [] => []
  | (k, v) :: fs => ("'" ++ k ++ "': " ++ pyRepr v) :: pyReprFields fs
end

/-- Python `str()`: the string itself for a string, `repr` otherwise. -/
def pyStr : PyVal → String
  | PyVal.str s => s
  | v => pyRepr v

/-- Python dict lookup `d[k]` / `k in d` on a string-keyed object (keys are
unique in a decoded JSON object; insertion order is preserved, which is why
the object is carried as a list). -/
def pyGet (fields : List (String × PyVal)) (k : String) : Option PyVal :=
  (fields.find? (fun p => p.1 == k)).map Prod.snd

/-- Python `d.get(k, default)`. -/
def pyGetD (fields : List (String × PyVal)) (k : String) (d : PyVal) : PyVal :=
  (pyGet fields k).getD d

/-- Python truthiness of an optional string CLI argument: `None` and the
empty string are falsy, every other string is truthy. -/
def truthy : Option String → Bool
  | Option.none => false
  | some s => !(s == "")

/-- Python `s or d` for an optional string: the string when truthy, else `d`. -/
def pyOr (o : Option String) (d : String) : String :=
  match o with
  | some s => if s == "" then d else s
  | Option.none => d

/-- Python slice `s[:n]` (character counting, as Python does). -/
def pySlice (s : String) (n : Nat) : String :=
  String.mk (s.toList.take n)

/-- Python `str.lower` on the ASCII strings the client handles (UUID hex). -/
def lowerStr (s : String) : String :=
  String.mk (s.toList.map Char.toLower)

/-- The numeric value of a decimal digit character, `none` otherwise. -/
def digitVal : Char → Option Nat
  | '9' => some 9
  | '8' => some 8
  | '7' => some 7
  | '6' => some 6
  | '5' => some 5
  | '4' => some 4
  | '3' => some 3
  | '2' => some 2
  | '1' => some 1
  | '0' => some 0
  | _ => Option.none

/-- The decimal digit character for a value below ten. -/
def digitChar : Nat → Char
  | 0 => '0'
  | 1 => '1'
  | 2 => '2'
  | 3 => '3'
  | 4 => '4'
  | 5 => '5'
  | 6 => '6'
  | 7 => '7'
  | 8 => '8'
  | 9 => '9'
  | _ => '*'

/-- Zero-padded two-digit decimal rendering (`%02d` for values below 100:
months, days, hours, minutes, seconds). -/
def pad2 (n : Nat) : List Char :=
  [digitChar (n / 10 % 10), digitChar (n % 10)]

/-- Zero-padded four-digit decimal rendering (`%Y` for years below 10000). -/
def pad4 (n : Nat) : List Char :=
  [digitChar (n / 1000 % 10), digitChar (n / 100 % 10),
   digitChar (n / 10 % 10), digitChar (n % 10)]

/-- A parsed timestamp, as pydantic's datetime validation produces one from
an ISO-8601 string. -/
structure DateTime where
  year : Nat
  month : Nat
  day : Nat
  hour : Nat
  minute : Nat
  second : Nat
deriving DecidableEq

/-- `datetime.isoformat()`: the canonical `YYYY-MM-DDTHH:MM:SS` rendering,
which is what pydantic's `model_dump(mode="json")` emits for a datetime. -/
def dtIso (dt : DateTime) : String :=
  String.mk (pad4 dt.year ++ ['-'] ++ pad2 dt.month ++ ['-'] ++ pad2 dt.day ++
    ['T'] ++ pad2 dt.hour ++ [':'] ++ pad2 dt.minute ++ [':'] ++ pad2 dt.second)

/-- `datetime.strftime("%Y-%m-%d %H:%M:%S")`, the table rendering of a
timestamp. -/
def dtStrftime (dt : DateTime) : String :=
  String.mk (pad4 dt.year ++ ['-'] ++ pad2 dt.month ++ ['-'] ++ pad2 dt.day ++
    [' '] ++ pad2 dt.hour ++ [':'] ++ pad2 dt.minute ++ [':'] ++ pad2 dt.second)

/-- The value of a two-digit decimal number given by its digit characters. -/
def twoDigits (a b : Char) : Option Nat :=
  match digitVal a, digitVal b with
  | some x, some y => some (10 * x + y)
  | _, _ => Option.none

/-- The value of a four-digit decimal number given by its digit characters. -/
def fourDigits (a b c d : Char) : Option Nat :=
  match digitVal a, digitVal b, digitVal c, digitVal d with
  | some x, some y, some z, some w => some (1000 * x + 100 * y + 10 * z + w)
  | _, _, _, _ => Option.none

/-- Pydantic datetime validation, on the canonical second-precision ISO-8601
strings the registry serves. -/
def parseDateTime (s : String) : Option DateTime :=
  match s.toList with
  | [y1, y2, y3, y4, k1, mo1, mo2, k2, d1, d2, k3,
     h1, h2, k4, mi1, mi2, k5, se1, se2] =>
      if k1 = '-' ∧ k2 = '-' ∧ k3 = 'T' ∧ k4 = ':' ∧ k5 = ':' then
        match fourDigits y1 y2 y3 y4, twoDigits mo1 mo2, twoDigits d1 d2,
              twoDigits h1 h2, twoDigits mi1 mi2, twoDigits se1 se2 with
        | some y, some mo, some d, some h, some mi, some se =>
            if 1 ≤ mo ∧ mo ≤ 12 ∧ 1 ≤ d ∧ d ≤ 31 ∧ h ≤ 23 ∧ mi ≤ 59 ∧ se ≤ 59 then
              some ⟨y, mo, d, h, mi, se⟩
            else Option.none
        | _, _, _, _, _, _ => Option.none
      else Option.none
  | _ => Option.none

/-- A hexadecimal digit character. -/
def isHexDigitChar (c : Char) : Bool :=
  c.isDigit || ('a' ≤ c && c ≤ 'f') || ('A' ≤ c && c ≤ 'F')

/-- A string is a dashed-form UUID: 36 characters, dashes at positions 8, 13,
18 and 23, hexadecimal digits everywhere else. -/
def uuidValid (s : String) : Bool :=
  s.toList.length == 36 &&
    s.toList.enum.all (fun p =>
      if p.1 == 8 || p.1 == 13 || p.1 == 18 || p.1 == 23 then p.2 == '-'
      else isHexDigitChar p.2)

/-- `uuid.UUID` validation on the dashed form, returning the canonical
(lower-case) string `str(uuid)` produces. -/
def parseUUIDStr (s : String) : Option String :=
  if uuidValid s then some (lowerStr s) else Option.none

/-- The `Schema` pydantic model of src/api/main.py: a named, versioned
JSON-Schema definition with server timestamps. -/
structure Schema where
  id : String
  name : String
  version : String
  description : Option String
  schema_definition : List (String × PyVal)
  created_at : DateTime
  updated_at : DateTime

/-- A required string field of a payload. -/
def strField (fields : List (String × PyVal)) (k : String) : Option String :=
  match pyGet fields k with
  | some (PyVal.str s) => some s
  | _ => Option.none

/-- A required integer field of a payload. -/
def intField (fields : List (String × PyVal)) (k : String) : Option Int :=
  match pyGet fields k with
  | some (PyVal.int n) => some n
  | _ => Option.none

/-- A required object-valued field of a payload (`dict[str, Any]`). -/
def dictField (fields : List (String × PyVal)) (k : String) :
    Option (List (String × PyVal)) :=
  match pyGet fields k with
  | some (PyVal.dict fs) => some fs
  | _ => Option.none

/-- A required datetime field of a payload, validated from its string form. -/
def dtField (fields : List (String × PyVal)) (k : String) : Option DateTime :=
  match pyGet fields k with
  | some (PyVal.str s) => parseDateTime s
  | _ => Option.none

/-- A required UUID field of a payload, canonicalized. -/
def uuidField (fields : List (String × PyVal)) (k : String) : Option String :=
  match pyGet fields k with
  | some (PyVal.str s) => parseUUIDStr s
  | _ => Option.none

/-- The optional `description: str | None = None` field: absent or JSON null
validate to `None`, a string to itself, anything else is a validation
error. -/
def optStrField (fields : List (String × PyVal)) (k : String) :
    Option (Option String) :=
  match pyGet fields k with
  | Option.none => some Option.none
  | some PyVal.null => some Option.none
  | some (PyVal.str s) => some (some s)
  | some _ => Option.none

/-- `Schema.model_validate`: pydantic validation of a raw payload into the
structured model (`none` models a raised ValidationError). -/
def Schema.model_validate (v : PyVal) : Option Schema :=
  match v with
  | PyVal.dict fields =>
      match uuidField fields "id", strField fields "name",
            strField fields "version", optStrField fields "description",
            dictField fields "schema_definition",
            dtField fields "created_at", dtField fields "updated_at" with
      | some id, some name, some version, some description,
        some schema_definition, some created_at, some updated_at =>
          some ⟨id, name, version, description, schema_definition,
                created_at, updated_at⟩
      | _, _, _, _, _, _, _ => Option.none
  | _ => Option.none

/-- `Schema.model_dump(mode="json")`: every declared field, in declaration
order, with UUID and datetimes in their canonical JSON (string) forms. -/
def Schema.model_dump (s : Schema) : List (String × PyVal) :=
  [("id", PyVal.str s.id),
   ("name", PyVal.str s.name),
   ("version", PyVal.str s.version),
   ("description", match s.description with
                   | some d => PyVal.str d
                   | Option.none => PyVal.null),
   ("schema_definition", PyVal.dict s.schema_definition),
   ("created_at", PyVal.str (dtIso s.created_at)),
   ("updated_at", PyVal.str (dtIso s.updated_at))]

/-- `Schema.to_table_row` (main.py lines 43-46): the id truncated to its
first 8 characters plus an ellipsis unless `full_id`, and the description
truncated to 50 characters (with no ellipsis marker). -/
def Schema.to_table_row (s : Schema) (full_id : Bool) : List String :=
  [(if full_id then s.id else pySlice s.id 8 ++ "..."),
   s.name, s.version, pySlice (pyOr s.description "") 50]

/-- The `Log` pydantic model of src/api/main.py. -/
structure Log where
  id : Int
  schema_id : String
  log_data : List (String × PyVal)
  created_at : DateTime

/-- `Log.model_validate`. -/
def Log.model_validate (v : PyVal) : Option Log :=
  match v with
  | PyVal.dict fields =>
      match intField fields "id", uuidField fields "schema_id",
            dictField fields "log_data", dtField fields "created_at" with
      | some id, some schema_id, some log_data, some created_at =>
          some ⟨id, schema_id, log_data, created_at⟩
      | _, _, _, _ => Option.none
  | _ => Option.none

/-- `Log.model_dump(mode="json")`. -/
def Log.model_dump (l : Log) : List (String × PyVal) :=
  [("id", PyVal.int l.id),
   ("schema_id", PyVal.str l.schema_id),
   ("log_data", PyVal.dict l.log_data),
   ("created_at", PyVal.str (dtIso l.created_at))]

/-- The log-data preview (main.py lines 62-66): the serialization truncated
to 50 characters with an ellipsis appended iff it exceeded 50 characters. -/
def dataPreview (s : String) : String :=
  if s.length > 50 then pySlice s 50 ++ "..." else s

/-- Python iteration over a JSON value, as `", ".join(str(v) for v in xs)`
uses it: a list yields its elements, a string its characters, a dict its
keys (other values are not iterable and lie outside the modelled payloads). -/
def pyIter : PyVal → List PyVal
  | PyVal.list xs => xs
  | PyVal.str s => s.toList.map (fun c => PyVal.str (String.mk [c]))
  | PyVal.dict fs => fs.map (fun p => PyVal.str p.1)
  | _ => []

/-- The constraint lines of one property object (main.py lines 189-204): a
fixed vocabulary probed in a fixed order — enum, pattern, minLength,
maxLength, minimum, maximum, format — with `minimum` and `maximum` rendered
under the labels `min` and `max`. -/
def constraintLines (field_props : List (String × PyVal)) : List String :=
  (match pyGet field_props "enum" with
   | some v => ["enum: [" ++ String.intercalate ", " ((pyIter v).map pyStr) ++ "]"]
   | Option.none => []) ++
  (match pyGet field_props "pattern" with
   | some v => ["pattern: " ++ pyStr v]
   | Option.none => []) ++
  (match pyGet field_props "minLength" with
   | some v => ["minLength: " ++ pyStr v]
   | Option.none => []) ++
  (match pyGet field_props "maxLength" with
   | some v => ["maxLength: " ++ pyStr v]
   | Option.none => []) ++
  (match pyGet field_props "minimum" with
   | some v => ["min: " ++ pyStr v]
   | Option.none => []) ++
  (match pyGet field_props "maximum" with
   | some v => ["max: " ++ pyStr v]
   | Option.none => []) ++
  (match pyGet field_props "format" with
   | some v => ["format: " ++ pyStr v]
   | Option.none => [])

/-- The constraints column string (main.py line 206): the lines joined by
newlines; the empty string when no vocabulary key is present. -/
def constraintsStr (field_props : List (String × PyVal)) : String :=
  String.intercalate "\n" (constraintLines field_props)

/-- One cell of a rendered table: plain text, a syntax-highlighted
pretty-printed JSON payload (expand mode), or a nested header-only grid (the
schema-definition sub-table). -/
inductive Cell where
  | text (s : String)
  | pretty (v : PyVal)
  | grid (columns : List String) (rows : List (List Cell))

/-- A rendered rich table: title, column headers, rows. -/
structure TableV where
  title : Option String
  columns : List String
  rows : List (List Cell)

/-- One observable action of a command: an HTTP request issued through the
process-wide client, a printed line, a printed JSON document, or a printed
table. -/
inductive Event where
  | request (path : String) (params : List (String × String))
  | print (msg : String)
  | printJson (v : PyVal)
  | printTable (t : TableV)

/-- Whether an event is an HTTP request. -/
def Event.isRequest : Event → Bool
  | Event.request _ _ => true
  | _ => false

/-- Whether an event renders a table. -/
def Event.isTable : Event → Bool
  | Event.printTable _ => true
  | _ => false

/-- Whether an event renders a JSON document. -/
def Event.isJson : Event → Bool
  | Event.printJson _ => true
  | _ => false

/-- The number of HTTP requests recorded in a trace. -/
def requestCount (events : List Event) : Nat :=
  events.countP (fun e => e.isRequest)

/-- What a finished command invocation leaves behind: its ordered event
trace and the process exit code. -/
structure CmdResult where
  events : List Event
  exitCode : Nat

/-- The outcome the HTTP collaborator hands the command for its single
request: a decoded 2xx JSON body, or a raised `httpx.HTTPError` (non-2xx
status turned into `HTTPStatusError` by `raise_for_status`, or a transport
failure). -/
inductive HttpOutcome where
  | ok (body : PyVal)
  | err (e : String)

/-- The response oracle: what the collaborator would answer on a given path
with given query parameters. -/
def Respond : Type := String → List (String × String) → HttpOutcome

/-- `data.get(key, [])` on a decoded JSON body followed by list iteration.
The registry serves objects whose listing key holds an array; other body
shapes are outside the modelled collaborator contract. -/
def getListKey (body : PyVal) (k : String) : List PyVal :=
  match body with
  | PyVal.dict fields =>
      match pyGetD fields k (PyVal.list []) with
      | PyVal.list xs => xs
      | _ => []
  | _ => []

/-- A value treated as a property-descriptor object; the registry serves
dicts here, other shapes are outside the modelled contract. -/
def asDict : PyVal → List (String × PyVal)
  | PyVal.dict fs => fs
  | _ => []

/-- The schema-definition sub-table (main.py lines 179-208): one row per
property in declared order — name, declared type (default "N/A"), required
mark, constraints column. -/
def defTableGrid (schema_definition : List (String × PyVal)) : Cell :=
  let properties := asDict (pyGetD schema_definition "properties" (PyVal.dict []))
  let required_fields :=
    match pyGetD schema_definition "required" (PyVal.list []) with
    | PyVal.list rs => rs
    | _ => []
  Cell.grid ["Field", "Type", "Required", "Constraints"]
    (properties.map (fun p =>
      let fpd := asDict p.2
      [Cell.text p.1,
       Cell.text (match pyGet fpd "type" with
                  | some v => pyStr v
                  | Option.none => "N/A"),
       Cell.text (if required_fields.contains (PyVal.str p.1) then "✓" else ""),
       Cell.text (constraintsStr fpd)]))

/-- The schema detail table (main.py lines 210-224): always the full
canonical UUID and the full description (or "N/A"), with the definition
sub-table nested in the last row. -/
def schemaDetailTable (schema : Schema) : TableV :=
  { title := some ("Schema: " ++ schema.name),
    columns := ["Field", "Value"],
    rows := [
      [Cell.text "ID", Cell.text schema.id],
      [Cell.text "Name", Cell.text schema.name],
      [Cell.text "Version", Cell.text schema.version],
      [Cell.text "Description", Cell.text (pyOr schema.description "N/A")],
      [Cell.text "Created At", Cell.text (dtStrftime schema.created_at)],
      [Cell.text "Updated At", Cell.text (dtStrftime schema.updated_at)],
      [Cell.text "Schema Definition", defTableGrid schema.schema_definition]] }

/-- The tail of `schemas get` after a schema is in hand (main.py lines
171-224): JSON mode prints the dump and returns before any table is built;
table mode renders the detail table. -/
def finishGetSchema (json_output : Bool) (prior : List Event) (schema : Schema) :
    CmdResult :=
  if json_output then
    { events := prior ++ [Event.printJson (PyVal.dict (Schema.model_dump schema))],
      exitCode := 0 }
  else
    { events := prior ++ [Event.printTable (schemaDetailTable schema)],
      exitCode := 0 }

/-- The "no schema found" diagnostic of the by-name lookup (main.py line
157), naming the queried name and, when truthy, the version. -/
def noSchemaMsg (name : String) (version : Option String) : String :=
  "No schema found with name '" ++ name ++ "'" ++
    (if truthy version then " and version " ++ pyOr version "" else "")

/-- The ambiguity warning of the by-name lookup (main.py line 165). -/
def foundWarning (count : Nat) : String :=
  "Warning: Found " ++ toString count ++ " schemas, displaying the first one"

/-- The query parameters of the by-name lookup (main.py lines 146-148):
always the name, plus the version when truthy. -/
def lookupParams (nm : String) (version : Option String) :
    List (String × String) :=
  [("name", nm)] ++ (if truthy version then [("version", pyOr version "")] else [])

/-- Arguments of `schemas get`: `--id` (a UUID, carried canonicalized, and
truthy exactly when present), `--name`, `--version`, `--json`. -/
structure GetSchemaArgs where
  schema_id : Option String
  name : Option String
  version : Option String
  json_output : Bool

/-- The `schemas get` command (main.py lines 124-224). -/
def get_schema (args : GetSchemaArgs) (respond : Respond) : CmdResult :=
  if args.schema_id.isSome && truthy args.name then
    { events := [Event.print "Error: Cannot specify both --id and --name"],
      exitCode := 1 }
  else match args.schema_id with
  | some sid =>
      let warn :=
        if truthy args.version then
          [Event.print "Warning: --version is ignored when using --id"]
        else []
      let path := "/schemas/" ++ sid
      (match respond path [] with
       | HttpOutcome.err _ =>
           { events := warn ++ [Event.request path []], exitCode := 1 }
       | HttpOutcome.ok body =>
           match Schema.model_validate body with
           | Option.none =>
               { events := warn ++ [Event.request path []], exitCode := 1 }
           | some schema =>
               finishGetSchema args.json_output (warn ++ [Event.request path []])
                 schema)
  | Option.none =>
      if truthy args.name then
        let nm := pyOr args.name ""
        let params := lookupParams nm args.version
        let req := Event.request "/schemas" params
        match respond "/schemas" params with
        | HttpOutcome.err _ => { events := [req], exitCode := 1 }
        | HttpOutcome.ok body =>
            match getListKey body "schemas" with
            | [] =>
                { events := [req, Event.print (noSchemaMsg nm args.version)],
                  exitCode := 1 }
            | s0 :: rest =>
                match Schema.model_validate s0 with
                | Option.none => { events := [req], exitCode := 1 }
                | some schema =>
                    let warns :=
                      if (s0 :: rest).length > 1 then
                        [Event.print (foundWarning (s0 :: rest).length)]
                      else []
                    finishGetSchema args.json_output ([req] ++ warns) schema
      else
        { events := [Event.print "Error: Must specify either --id or --name"],
          exitCode := 1 }

/-- The `schemas list` command (main.py lines 91-121). -/
def list_schemas (full json_output : Bool) (respond : Respond) : CmdResult :=
  let req := Event.request "/schemas" []
  match respond "/schemas" [] with
  | HttpOutcome.err _ => { events := [req], exitCode := 1 }
  | HttpOutcome.ok body =>
      match getListKey body "schemas" with
      | [] => { events := [req, Event.print "No schemas found"], exitCode := 0 }
      | s :: rest =>
          match (s :: rest).mapM Schema.model_validate with
          | Option.none => { events := [req], exitCode := 1 }
          | some schemas =>
              if json_output then
                { events := [req, Event.printJson (PyVal.list
                    (schemas.map (fun x => PyVal.dict (Schema.model_dump x))))],
                  exitCode := 0 }
              else
                { events := [req, Event.printTable
                    { title := some "Schemas",
                      columns := ["ID", "Name", "Version", "Description"],
                      rows := schemas.map
                        (fun x => (Schema.to_table_row x full).map Cell.text) }],
                  exitCode := 0 }

/-- `Log.to_table_row` (main.py lines 59-72): id, possibly truncated schema
UUID, formatted timestamp, 50-character data preview. -/
def Log.to_table_row (l : Log) (full_id : Bool) : List Cell :=
  [Cell.text (toString l.id),
   Cell.text (if full_id then l.schema_id else pySlice l.schema_id 8 ++ "..."),
   Cell.text (dtStrftime l.created_at),
   Cell.text (dataPreview (pyStr (PyVal.dict l.log_data)))]

/-- `Log.to_table_row_expanded` (main.py lines 74-88): as the plain row but
with the payload pretty-printed and highlighted instead of previewed. -/
def Log.to_table_row_expanded (l : Log) (full_id : Bool) : List Cell :=
  [Cell.text (toString l.id),
   Cell.text (if full_id then l.schema_id else pySlice l.schema_id 8 ++ "..."),
   Cell.text (dtStrftime l.created_at),
   Cell.pretty (PyVal.dict l.log_data)]

/-- Arguments of `logs list`. -/
structure ListLogsArgs where
  schema_name : Option String
  full : Bool
  json_output : Bool
  expand : Bool
  limit : Int

/-- The `logs list` command (main.py lines 227-278).  Its body runs inside a
try block whose handler catches `httpx.HTTPError` only, prints a diagnostic
and exits 1; a pydantic validation error is not caught and aborts the
process. -/
def list_logs (args : ListLogsArgs) (respond : Respond) : CmdResult :=
  if ¬ truthy args.schema_name then
    { events := [Event.print "Error: schema_name is required"], exitCode := 1 }
  else
    let nm := pyOr args.schema_name ""
    let params := [("limit", toString args.limit)]
    let path := "/logs/schema/" ++ nm
    let req := Event.request path params
    match respond path params with
    | HttpOutcome.err e =>
        { events := [req, Event.print ("Error fetching logs: " ++ e)],
          exitCode := 1 }
    | HttpOutcome.ok body =>
        match getListKey body "logs" with
        | [] =>
            { events := [req,
                Event.print ("No logs found for schema '" ++ nm ++ "'")],
              exitCode := 0 }
        | l :: rest =>
            match (l :: rest).mapM Log.model_validate with
            | Option.none => { events := [req], exitCode := 1 }
            | some logs =>
                if args.json_output then
                  { events := [req, Event.printJson (PyVal.list
                      (logs.map (fun x => PyVal.dict (Log.model_dump x))))],
                    exitCode := 0 }
                else
                  { events := [req, Event.printTable
                      { title := some ("Logs for Schema: " ++ nm),
                        columns := ["Log ID", "Schema ID", "Created At",
                                    "Data Preview"],
                        rows := logs.map (fun x =>
                          if args.expand then Log.to_table_row_expanded x args.full
                          else Log.to_table_row x args.full) }],
                    exitCode := 0 }

/-- One row of the migration entry point's schema table (python-mig/main.py
lines 43-50), built from the raw payload dict; missing keys would raise in
Python and are modelled with empty strings, outside the server contract. -/
def migSchemaRow (full : Bool) (schema : PyVal) : List Cell :=
  let d := asDict schema
  let idStr := pyStr (pyGetD d "id" (PyVal.str ""))
  [Cell.text (if full then idStr else pySlice idStr 8 ++ "..."),
   Cell.text (pyStr (pyGetD d "name" (PyVal.str ""))),
   Cell.text (pyStr (pyGetD d "version" (PyVal.str ""))),
   Cell.text (pySlice (pyStr (pyGetD d "description" (PyVal.str ""))) 50)]

/-- The `schemas list` command of the second, unauthenticated entry point
(src/api/python-mig/main.py lines 18-52): no model validation, JSON mode
re-prints the raw body. -/
def mig_list_schemas (full json_output : Bool) (respond : Respond) : CmdResult :=
  let req := Event.request "/schemas" []
  match respond "/schemas" [] with
  | HttpOutcome.err _ => { events := [req], exitCode := 1 }
  | HttpOutcome.ok body =>
      match getListKey body "schemas" with
      | [] => { events := [req, Event.print "No schemas found"], exitCode := 0 }
      | s :: rest =>
          if json_output then
            { events := [req, Event.printJson body], exitCode := 0 }
          else
            { events := [req, Event.printTable
                { title := some "Schemas",
                  columns := ["ID", "Name", "Version", "Description"],
                  rows := (s :: rest).map (migSchemaRow full) }],
              exitCode := 0 }

/-- What the underlying `httpx` call produces before the wrapper looks at
it: a response with its status and body text, or a request that could not
complete (timeout, connection refused, DNS failure) with its cause. -/
inductive RawOutcome where
  | response (status : Nat) (body : String)
  | failure (cause : String)

/-- The two error kinds the transport wrapper lets escape:
`httpx.HTTPStatusError` with the status and body, `httpx.RequestError` with
the underlying cause. -/
inductive ApiError where
  | statusError (status : Nat) (body : String)
  | requestError (cause : String)

/-- What one wrapper call leaves behind: how many requests it issued, the
diagnostic lines it printed, and the value it returned or the error it
re-raised. -/
structure WrapperResult where
  requests : Nat
  printed : List String
  outcome : Except ApiError (Nat × String)

/-- `APIClient.get` (client.py lines 12-22): one request; on a non-2xx
status print a diagnostic and re-raise the status error; on a transport
failure print a diagnostic and re-raise the request error. -/
def APIClient.get (o : RawOutcome) : WrapperResult :=
  match o with
  | RawOutcome.response st body =>
      if 200 ≤ st ∧ st < 300 then
        { requests := 1, printed := [], outcome := Except.ok (st, body) }
      else
        { requests := 1,
          printed := ["X HTTP " ++ toString st ++ ": " ++ body],
          outcome := Except.error (ApiError.statusError st body) }
  | RawOutcome.failure cause =>
      { requests := 1,
        printed := ["X Request failed: " ++ cause],
        outcome := Except.error (ApiError.requestError cause) }

/-- `APIClient.post` (client.py lines 24-34): identical to `get` up to the
glyph opening its diagnostics. -/
def APIClient.post (o : RawOutcome) : WrapperResult :=
  match o with
  | RawOutcome.response st body =>
      if 200 ≤ st ∧ st < 300 then
        { requests := 1, printed := [], outcome := Except.ok (st, body) }
      else
        { requests := 1,
          printed := ["✗ HTTP " ++ toString st ++ ": " ++ body],
          outcome := Except.error (ApiError.statusError st body) }
  | RawOutcome.failure cause =>
      { requests := 1,
        printed := ["✗ Request failed: " ++ cause],
        outcome := Except.error (ApiError.requestError cause) }

/-! Helper lemmas about the embedding. -/

theorem digitVal_lt {c : Char} {a : Nat} (h : digitVal c = some a) : a < 10 := by
  unfold digitVal at h
  split at h
  all_goals first
    | exact Option.noConfusion h
    | (injection h with h; omega)

theorem digitChar_digitVal {c : Char} {a : Nat} (h : digitVal c = some a) :
    digitChar a = c := by
  unfold digitVal at h
  split at h
  all_goals first
    | exact Option.noConfusion h
    | (injection h with h; subst h; rfl)

theorem twoDigits_pad2 {a b : Char} {n : Nat} (h : twoDigits a b = some n) :
    pad2 n = [a, b] := by
  unfold twoDigits at h
  split at h
  · rename_i x y hx hy
    have hx10 := digitVal_lt hx
    have hy10 := digitVal_lt hy
    injection h with h
    subst h
    have h1 : (10 * x + y) / 10 % 10 = x := by omega
    have h2 : (10 * x + y) % 10 = y := by omega
    simp only [pad2, h1, h2, digitChar_digitVal hx, digitChar_digitVal hy]
  · exact Option.noConfusion h

theorem fourDigits_pad4 {a b c d : Char} {n : Nat}
    (h : fourDigits a b c d = some n) : pad4 n = [a, b, c, d] := by
  unfold fourDigits at h
  split at h
  · rename_i x y z w hx hy hz hw
    have hx10 := digitVal_lt hx
    have hy10 := digitVal_lt hy
    have hz10 := digitVal_lt hz
    have hw10 := digitVal_lt hw
    injection h with h
    subst h
    have h1 : (1000 * x + 100 * y + 10 * z + w) / 1000 % 10 = x := by omega
    have h2 : (1000 * x + 100 * y + 10 * z + w) / 100 % 10 = y := by omega
    have h3 : (1000 * x + 100 * y + 10 * z + w) / 10 % 10 = z := by omega
    have h4 : (1000 * x + 100 * y + 10 * z + w) % 10 = w := by omega
    simp only [pad4, h1, h2, h3, h4, digitChar_digitVal hx,
      digitChar_digitVal hy, digitChar_digitVal hz, digitChar_digitVal hw]
  · exact Option.noConfusion h

theorem parseDateTime_iso {s : String} {dt : DateTime}
    (h : parseDateTime s = some dt) : dtIso dt = s := by
  unfold parseDateTime at h
  split at h
  case _ y1 y2 y3 y4 k1 mo1 mo2 k2 d1 d2 k3 h1 h2 k4 mi1 mi2 k5 se1 se2 heq =>
    split at h
    case isTrue hc =>
      obtain ⟨hk1, hk2, hk3, hk4, hk5⟩ := hc
      split at h
      · rename_i y mo d hh mi se hy hmo hd hhh hmi hse
        split at h
        case isTrue hr =>
          injection h with h
          subst h
          apply String.ext
          show (pad4 y ++ ['-'] ++ pad2 mo ++ ['-'] ++ pad2 d ++ ['T'] ++
            pad2 hh ++ [':'] ++ pad2 mi ++ [':'] ++ pad2 se) = s.data
          have hsdata : s.data = s.toList := rfl
          rw [hsdata, heq, fourDigits_pad4 hy, twoDigits_pad2 hmo,
            twoDigits_pad2 hd, twoDigits_pad2 hhh, twoDigits_pad2 hmi,
            twoDigits_pad2 hse, hk1, hk2, hk3, hk4, hk5]
          rfl
        case isFalse => exact Option.noConfusion h
      · exact Option.noConfusion h
    case isFalse => exact Option.noConfusion h
  case _ => exact Option.noConfusion h

theorem pySlice_length (s : String) (n : Nat) :
    (pySlice s n).length = min n s.length := by
  simp [pySlice, String.length_mk, List.length_take]

theorem pySlice_of_le {s : String} {n : Nat} (h : s.length ≤ n) :
    pySlice s n = s := by
  unfold pySlice
  rw [List.take_of_length_le]
  · cases s
    rfl
  · exact h

theorem toList_append (a b : String) : (a ++ b).toList = a.toList ++ b.toList := by
  simp [String.toList, String.data_append]

theorem strField_some {fields : List (String × PyVal)} {k v : String}
    (h : strField fields k = some v) : pyGet fields k = some (PyVal.str v) := by
  unfold strField at h
  split at h
  · rename_i s heq
    injection h with h
    subst h
    exact heq
  · exact Option.noConfusion h

theorem intField_some {fields : List (String × PyVal)} {k : String} {v : Int}
    (h : intField fields k = some v) : pyGet fields k = some (PyVal.int v) := by
  unfold intField at h
  split at h
  · rename_i n heq
    injection h with h
    subst h
    exact heq
  · exact Option.noConfusion h

theorem dictField_some {fields : List (String × PyVal)} {k : String}
    {v : List (String × PyVal)} (h : dictField fields k = some v) :
    pyGet fields k = some (PyVal.dict v) := by
  unfold dictField at h
  split at h
  · rename_i fs heq
    injection h with h
    subst h
    exact heq
  · exact Option.noConfusion h

theorem uuidField_some {fields : List (String × PyVal)} {k u : String}
    (h : uuidField fields k = some u) :
    ∃ raw, pyGet fields k = some (PyVal.str raw) ∧ uuidValid raw = true ∧
      u = lowerStr raw := by
  unfold uuidField at h
  split at h
  · rename_i raw heq
    unfold parseUUIDStr at h
    split at h
    · rename_i hvalid
      injection h with h
      exact ⟨raw, heq, hvalid, h.symm⟩
    · exact Option.noConfusion h
  · exact Option.noConfusion h

theorem dtField_some {fields : List (String × PyVal)} {k : String} {dt : DateTime}
    (h : dtField fields k = some dt) :
    pyGet fields k = some (PyVal.str (dtIso dt)) := by
  unfold dtField at h
  split at h
  · rename_i raw heq
    rw [parseDateTime_iso h]
    exact heq
  · exact Option.noConfusion h

theorem optStrField_some {fields : List (String × PyVal)} {k : String}
    {v : Option String} (h : optStrField fields k = some v) :
    (∀ d, v = some d → pyGet fields k = some (PyVal.str d)) ∧
    (v = Option.none → pyGet fields k = Option.none ∨
        pyGet fields k = some PyVal.null) := by
  unfold optStrField at h
  split at h
  · rename_i heq
    injection h with h
    subst h
    exact ⟨fun d hd => Option.noConfusion hd, fun _ => Or.inl heq⟩
  · rename_i heq
    injection h with h
    subst h
    exact ⟨fun d hd => Option.noConfusion hd, fun _ => Or.inr heq⟩
  · rename_i d heq
    injection h with h
    subst h
    refine ⟨fun e he => ?_, fun he => Option.noConfusion he⟩
    injection he with he
    subst he
    exact heq
  · exact Option.noConfusion h

theorem Schema.model_validate_inv {p : PyVal} {s : Schema}
    (h : Schema.model_validate p = some s) :
    ∃ fields, p = PyVal.dict fields ∧
      uuidField fields "id" = some s.id ∧
      strField fields "name" = some s.name ∧
      strField fields "version" = some s.version ∧
      optStrField fields "description" = some s.description ∧
      dictField fields "schema_definition" = some s.schema_definition ∧
      dtField fields "created_at" = some s.created_at ∧
      dtField fields "updated_at" = some s.updated_at := by
  unfold Schema.model_validate at h
  split at h
  · rename_i fields
    split at h
    · rename_i id nm ver dsc sd ca ua hid hnm hver hdsc hsd hca hua
      injection h with h
      subst h
      exact ⟨fields, rfl, hid, hnm, hver, hdsc, hsd, hca, hua⟩
    · exact Option.noConfusion h
  · exact Option.noConfusion h

/-! Shared concrete values for witnesses and counterexamples. -/

/-- A canonical UUID string. -/
def exUUID : String := "123e4567-e89b-12d3-a456-426614174000"

/-- A concrete timestamp. -/
def exDT : DateTime := ⟨2024, 1, 15, 10, 30, 0⟩

/-- A 51-character description. -/
def exDesc51 : String := String.mk (List.replicate 51 'a')

/-- A concrete validated schema with a 51-character description. -/
def exSchema : Schema :=
  { id := exUUID,
    name := "orders",
    version := "1.0.0",
    description := some exDesc51,
    schema_definition :=
      [("properties", PyVal.dict
          [("status", PyVal.dict
              [("type", PyVal.str "string"), ("minimum", PyVal.int 5)])]),
       ("required", PyVal.list [PyVal.str "status"])],
    created_at := exDT,
    updated_at := exDT }

theorem pyGet_pair_swap {k1 k2 : String} (v1 v2 : PyVal) (hne : k1 ≠ k2)
    (k : String) :
    pyGet [(k1, v1), (k2, v2)] k = pyGet [(k2, v2), (k1, v1)] k := by
  unfold pyGet
  by_cases h1 : k1 == k <;> by_cases h2 : k2 == k
  · exact absurd (((beq_iff_eq ..).1 h1).trans ((beq_iff_eq ..).1 h2).symm) hne
  all_goals simp [List.find?, h1, h2]

/-- C1: the constraint lines of a property object are produced in the fixed
vocabulary order enum, pattern, minLength, maxLength, minimum, maximum,
format, independently of the order of the keys in the property object: two
property objects with the same key-value mapping render identical constraint
lines and constraint strings, a property object listing all seven keys in
reversed order still renders in vocabulary order, and `{maximum: 10,
minLength: 3}` renders the minLength line before the maximum line. -/
theorem C1_fixed_constraint_order :
    (∀ fp1 fp2 : List (String × PyVal),
        (∀ k, pyGet fp1 k = pyGet fp2 k) →
        constraintLines fp1 = constraintLines fp2 ∧
        constraintsStr fp1 = constraintsStr fp2) ∧
    (∀ vEnum vPat vMinL vMaxL vMin vMax vFmt : PyVal,
        constraintLines [("format", vFmt), ("maximum", vMax), ("minimum", vMin),
          ("maxLength", vMaxL), ("minLength", vMinL), ("pattern", vPat),
          ("enum", vEnum)] =
        ["enum: [" ++ String.intercalate ", " ((pyIter vEnum).map pyStr) ++ "]",
         "pattern: " ++ pyStr vPat,
         "minLength: " ++ pyStr vMinL,
         "maxLength: " ++ pyStr vMaxL,
         "min: " ++ pyStr vMin,
         "max: " ++ pyStr vMax,
         "format: " ++ pyStr vFmt]) ∧
    constraintLines [("maximum", PyVal.int 10), ("minLength", PyVal.int 3)] =
      ["minLength: 3", "max: 10"] := by
  refine ⟨?_, ?_, rfl⟩
  · intro fp1 fp2 h
    have hl : constraintLines fp1 = constraintLines fp2 := by
      unfold constraintLines
      rw [h, h, h, h, h, h, h]
    exact ⟨hl, by unfold constraintsStr; rw [hl]⟩
  · intro vEnum vPat vMinL vMaxL vMin vMax vFmt
    rfl

/-- C1 witness: the two-key example in both source orders, rendered through
the invariance part of the theorem. -/
theorem C1_fixed_constraint_order_witness :
    constraintLines [("maximum", PyVal.int 10), ("minLength", PyVal.int 3)] =
      constraintLines [("minLength", PyVal.int 3), ("maximum", PyVal.int 10)] :=
  (C1_fixed_constraint_order.1 _ _
    (pyGet_pair_swap (PyVal.int 10) (PyVal.int 3) (by decide))).1

/-- C2 counterexample: a schema whose description has 51 characters renders
a description preview of length 50 — the description column is truncated
without the ellipsis marker, so the claimed length 53 is wrong. -/
theorem C2_counterexample :
    (pyOr exSchema.description "").length = 51 ∧
    ((Schema.to_table_row exSchema false).getD 3 "").length = 50 ∧
    ((Schema.to_table_row exSchema false).getD 3 "").length ≠ 53 := by
  refine ⟨rfl, rfl, by decide⟩

/-- C2 amended: the serialized `log_data` preview is truncated to 50
characters with a 3-character ellipsis appended iff the serialization
exceeds 50 characters (length exactly 53 in that case) and rendered verbatim
otherwise; the schema description preview is the first 50 characters with no
ellipsis — it equals the description when that is at most 50 characters long
and has length exactly 50 (not 53) otherwise. -/
theorem C2_amended_previews :
    (∀ s : String,
        (s.length ≤ 50 → dataPreview s = s) ∧
        (s.length > 50 →
          dataPreview s = pySlice s 50 ++ "..." ∧ (dataPreview s).length = 53)) ∧
    (∀ (l : Log) (full : Bool),
        (Log.to_table_row l full).getD 3 (Cell.text "") =
          Cell.text (dataPreview (pyStr (PyVal.dict l.log_data)))) ∧
    (∀ (sc : Schema) (full : Bool),
        (Schema.to_table_row sc full).getD 3 "" =
          pySlice (pyOr sc.description "") 50 ∧
        ((pyOr sc.description "").length ≤ 50 →
          (Schema.to_table_row sc full).getD 3 "" = pyOr sc.description "") ∧
        ((pyOr sc.description "").length > 50 →
          ((Schema.to_table_row sc full).getD 3 "").length = 50)) := by
  refine ⟨?_, ?_, ?_⟩
  · intro s
    constructor
    · intro h
      unfold dataPreview
      rw [if_neg (by omega)]
    · intro h
      unfold dataPreview
      rw [if_pos h]
      refine ⟨rfl, ?_⟩
      rw [String.length_append, pySlice_length]
      have h3 : ("..." : String).length = 3 := rfl
      rw [h3]
      omega
  · intro l full
    rfl
  · intro sc full
    refine ⟨rfl, ?_, ?_⟩
    · intro h
      show pySlice (pyOr sc.description "") 50 = pyOr sc.description ""
      exact pySlice_of_le h
    · intro h
      show (pySlice (pyOr sc.description "") 50).length = 50
      rw [pySlice_length]
      omega

/-- C2 witness: the preview rules evaluated on a 51-character log-data
serialization and on the 51-character description of the example schema. -/
theorem C2_amended_previews_witness :
    (exDesc51.length > 50 ∧
      dataPreview exDesc51 = pySlice exDesc51 50 ++ "..." ∧
      (dataPreview exDesc51).length = 53) ∧
    ((pyOr exSchema.description "").length > 50 ∧
      ((Schema.to_table_row exSchema false).getD 3 "").length = 50) :=
  ⟨⟨by decide, (C2_amended_previews.1 exDesc51).2 (by decide)⟩,
   ⟨by decide, ((C2_amended_previews.2.2 exSchema false).2.2 (by decide))⟩⟩

/-- The fixed constraint vocabulary, in render order (main.py lines
190-204). -/
def constraintVocab : List String :=
  ["enum", "pattern", "minLength", "maxLength", "minimum", "maximum", "format"]

/-- The label under which a vocabulary key is rendered: the key itself,
except that `minimum` renders as `min` and `maximum` as `max`. -/
def constraintLabel (k : String) : String :=
  if k = "minimum" then "min" else if k = "maximum" then "max" else k

/-- The rendered value of a constraint: enum values comma-joined inside
brackets, every other value via `str()`. -/
def constraintValueStr (k : String) (v : PyVal) : String :=
  if k = "enum" then
    "[" ++ String.intercalate ", " ((pyIter v).map pyStr) ++ "]"
  else pyStr v

/-- C3 counterexample: a property with minimum 5 renders the line "min: 5",
not the claimed "minimum: 5", and one with maximum 10 renders "max: 10", not
"maximum: 10". -/
theorem C3_counterexample :
    constraintLines [("minimum", PyVal.int 5)] = ["min: 5"] ∧
    constraintLines [("minimum", PyVal.int 5)] ≠ ["minimum: 5"] ∧
    constraintLines [("maximum", PyVal.int 10)] = ["max: 10"] ∧
    constraintLines [("maximum", PyVal.int 10)] ≠ ["maximum: 10"] := by
  refine ⟨rfl, by decide, rfl, by decide⟩

/-- C3 amended: for every vocabulary key present in a property object the
rendered line is `label: value` where the label is the key's own name for
enum, pattern, minLength, maxLength and format but the abbreviation `min`
for minimum and `max` for maximum (enum values comma-joined inside
brackets); conversely every rendered line arises this way from a present
vocabulary key. -/
theorem C3_amended_line_format :
    (∀ (fp : List (String × PyVal)) (k : String) (v : PyVal),
        k ∈ constraintVocab → pyGet fp k = some v →
        (constraintLabel k ++ ": " ++ constraintValueStr k v) ∈
          constraintLines fp) ∧
    (∀ (fp : List (String × PyVal)) (line : String),
        line ∈ constraintLines fp →
        ∃ k v, k ∈ constraintVocab ∧ pyGet fp k = some v ∧
          line = constraintLabel k ++ ": " ++ constraintValueStr k v) := by
  constructor
  · intro fp k v hk hv
    unfold constraintLines
    simp only [constraintVocab, List.mem_cons, List.not_mem_nil, or_false] at hk
    rcases hk with rfl | rfl | rfl | rfl | rfl | rfl | rfl
    · refine List.mem_append_left _ (List.mem_append_left _
        (List.mem_append_left _ (List.mem_append_left _
          (List.mem_append_left _ (List.mem_append_left _ ?_)))))
      rw [hv]
      exact List.mem_singleton.2 rfl
    · refine List.mem_append_left _ (List.mem_append_left _
        (List.mem_append_left _ (List.mem_append_left _
          (List.mem_append_left _ (List.mem_append_right _ ?_)))))
      rw [hv]
      exact List.mem_singleton.2 rfl
    · refine List.mem_append_left _ (List.mem_append_left _
        (List.mem_append_left _ (List.mem_append_left _
          (List.mem_append_right _ ?_))))
      rw [hv]
      exact List.mem_singleton.2 rfl
    · refine List.mem_append_left _ (List.mem_append_left _
        (List.mem_append_left _ (List.mem_append_right _ ?_)))
      rw [hv]
      exact List.mem_singleton.2 rfl
    · refine List.mem_append_left _ (List.mem_append_left _
        (List.mem_append_right _ ?_))
      rw [hv]
      exact List.mem_singleton.2 rfl
    · refine List.mem_append_left _ (List.mem_append_right _ ?_)
      rw [hv]
      exact List.mem_singleton.2 rfl
    · refine List.mem_append_right _ ?_
      rw [hv]
      exact List.mem_singleton.2 rfl
  · intro fp line hline
    unfold constraintLines at hline
    rcases List.mem_append.1 hline with hline | h
    rotate_left
    · revert h
      cases hk : pyGet fp "format" with
      | none => intro h; exact absurd h (List.not_mem_nil _)
      | some v =>
          intro h
          rw [List.mem_singleton.1 h]
          exact ⟨"format", v, by decide, hk, rfl⟩
    rcases List.mem_append.1 hline with hline | h
    rotate_left
    · revert h
      cases hk : pyGet fp "maximum" with
      | none => intro h; exact absurd h (List.not_mem_nil _)
      | some v =>
          intro h
          rw [List.mem_singleton.1 h]
          exact ⟨"maximum", v, by decide, hk, rfl⟩
    rcases List.mem_append.1 hline with hline | h
    rotate_left
    · revert h
      cases hk : pyGet fp "minimum" with
      | none => intro h; exact absurd h (List.not_mem_nil _)
      | some v =>
          intro h
          rw [List.mem_singleton.1 h]
          exact ⟨"minimum", v, by decide, hk, rfl⟩
    rcases List.mem_append.1 hline with hline | h
    rotate_left
    · revert h
      cases hk : pyGet fp "maxLength" with
      | none => intro h; exact absurd h (List.not_mem_nil _)
      | some v =>
          intro h
          rw [List.mem_singleton.1 h]
          exact ⟨"maxLength", v, by decide, hk, rfl⟩
    rcases List.mem_append.1 hline with hline | h
    rotate_left
    · revert h
      cases hk : pyGet fp "minLength" with
      | none => intro h; exact absurd h (List.not_mem_nil _)
      | some v =>
          intro h
          rw [List.mem_singleton.1 h]
          exact ⟨"minLength", v, by decide, hk, rfl⟩
    rcases List.mem_append.1 hline with hline | h
    rotate_left
    · revert h
      cases hk : pyGet fp "pattern" with
      | none => intro h; exact absurd h (List.not_mem_nil _)
      | some v =>
          intro h
          rw [List.mem_singleton.1 h]
          exact ⟨"pattern", v, by decide, hk, rfl⟩
    · revert hline
      cases hk : pyGet fp "enum" with
      | none => intro h; exact absurd h (List.not_mem_nil _)
      | some v =>
          intro h
          rw [List.mem_singleton.1 h]
          exact ⟨"enum", v, by decide, hk, rfl⟩

/-- C3 witness: the amended format rule evaluated on a property with
minimum 5, whose line is "min: 5". -/
theorem C3_amended_line_format_witness :
    (constraintLabel "minimum" ++ ": " ++
      constraintValueStr "minimum" (PyVal.int 5)) ∈
      constraintLines [("minimum", PyVal.int 5)] ∧
    constraintLabel "minimum" ++ ": " ++
      constraintValueStr "minimum" (PyVal.int 5) = "min: 5" :=
  ⟨C3_amended_line_format.1 _ "minimum" (PyVal.int 5) (by decide) rfl, rfl⟩

/-- C5 counterexample: with `--id` supplied and `--name` supplied as the
empty string, both options are present, yet the conflict guard (a Python
truthiness test) does not fire: the command proceeds down the id path and
the transport records one request, not zero. -/
theorem C5_counterexample :
    (GetSchemaArgs.mk (some exUUID) (some "") Option.none false).schema_id.isSome
        = true ∧
    (GetSchemaArgs.mk (some exUUID) (some "") Option.none false).name.isSome
        = true ∧
    requestCount (get_schema
      (GetSchemaArgs.mk (some exUUID) (some "") Option.none false)
      (fun _ _ => HttpOutcome.err "connection refused")).events = 1 := by
  refine ⟨rfl, rfl, rfl⟩

/-- C5 amended: supplying `--id` together with a non-empty `--name` is
detected before any network call: the command's whole trace is the single
error line, the exit code is 1, and the transport records zero requests. -/
theorem C5_amended_conflict (args : GetSchemaArgs) (respond : Respond)
    (h1 : args.schema_id.isSome = true) (h2 : truthy args.name = true) :
    get_schema args respond =
      ⟨[Event.print "Error: Cannot specify both --id and --name"], 1⟩ ∧
    requestCount (get_schema args respond).events = 0 := by
  have hc : (args.schema_id.isSome && truthy args.name) = true := by
    rw [h1, h2]
    rfl
  unfold get_schema
  rw [if_pos hc]
  exact ⟨rfl, rfl⟩

/-- C5 witness: the conflict guard evaluated on `--id` plus `--name
orders`. -/
theorem C5_amended_conflict_witness :
    get_schema (GetSchemaArgs.mk (some exUUID) (some "orders") Option.none false)
      (fun _ _ => HttpOutcome.err "nope") =
      ⟨[Event.print "Error: Cannot specify both --id and --name"], 1⟩ ∧
    requestCount (get_schema
      (GetSchemaArgs.mk (some exUUID) (some "orders") Option.none false)
      (fun _ _ => HttpOutcome.err "nope")).events = 0 :=
  C5_amended_conflict _ _ rfl rfl

/-- C7 counterexample: in the schema detail view the ID row always carries
the full canonical UUID — there is no full-id toggle on `schemas get`, and
the identifier is not the truncated first-8-characters-plus-ellipsis form
the claim requires for every tabular view when the toggle is off. -/
theorem C7_counterexample :
    ((schemaDetailTable exSchema).rows.headD []).getD 1 (Cell.text "") =
      Cell.text exUUID ∧
    exUUID ≠ pySlice exUUID 8 ++ "..." := by
  refine ⟨rfl, by decide⟩

/-- C7 amended: the full-id toggle governs the identifier column of the
schema list rows, the log list rows and the expanded log rows — the short
form is exactly the first 8 characters of the canonical UUID string plus the
3-character ellipsis (length 11 against the 36 of a full UUID), the full
form the canonical string — but the schema detail view always renders the
full canonical UUID, toggle or no toggle. -/
theorem C7_amended_id_truncation :
    (∀ (s : Schema) (full : Bool),
        (Schema.to_table_row s full).headD "" =
          (if full then s.id else pySlice s.id 8 ++ "...")) ∧
    (∀ (l : Log) (full : Bool),
        (Log.to_table_row l full).getD 1 (Cell.text "") =
          Cell.text
            (if full then l.schema_id else pySlice l.schema_id 8 ++ "...") ∧
        (Log.to_table_row_expanded l full).getD 1 (Cell.text "") =
          Cell.text
            (if full then l.schema_id else pySlice l.schema_id 8 ++ "...")) ∧
    (∀ s : Schema,
        (schemaDetailTable s).rows.headD [] = [Cell.text "ID", Cell.text s.id]) ∧
    (∀ s : Schema, uuidValid s.id = true →
        s.id.length = 36 ∧ (pySlice s.id 8).length = 8 ∧
        (pySlice s.id 8 ++ "...").length = 11) := by
  refine ⟨?_, ?_, ?_, ?_⟩
  · intro s full
    rfl
  · intro l full
    exact ⟨rfl, rfl⟩
  · intro s
    rfl
  · intro s h
    have hlen : s.id.toList.length = 36 := by
      unfold uuidValid at h
      rw [Bool.and_eq_true] at h
      have h1 := h.1
      simp only [beq_iff_eq] at h1
      exact h1
    have hlen' : s.id.length = 36 := hlen
    refine ⟨hlen', ?_, ?_⟩
    · rw [pySlice_length]
      omega
    · rw [String.length_append, pySlice_length]
      have h3 : ("..." : String).length = 3 := rfl
      rw [h3]
      omega

/-- C7 witness: the truncation forms evaluated on the example schema and a
concrete log record. -/
theorem C7_amended_id_truncation_witness :
    uuidValid exSchema.id = true ∧
    exSchema.id.length = 36 ∧ (pySlice exSchema.id 8).length = 8 ∧
    (pySlice exSchema.id 8 ++ "...").length = 11 ∧
    (Schema.to_table_row exSchema false).headD "" =
      (if false then exSchema.id else pySlice exSchema.id 8 ++ "...") :=
  ⟨by decide,
   (C7_amended_id_truncation.2.2.2 exSchema (by decide)).1,
   (C7_amended_id_truncation.2.2.2 exSchema (by decide)).2.1,
   (C7_amended_id_truncation.2.2.2 exSchema (by decide)).2.2,
   C7_amended_id_truncation.1 exSchema false⟩

theorem truthy_some {s : String} (h : s ≠ "") : truthy (some s) = true := by
  simp [truthy, beq_eq_false_iff_ne.2 h]

theorem pyOr_some {s d : String} (h : s ≠ "") : pyOr (some s) d = s := by
  simp [pyOr, beq_eq_false_iff_ne.2 h]

theorem getListKey_some_list {fields : List (String × PyVal)} {k : String}
    {xs : List PyVal} (h : pyGet fields k = some (PyVal.list xs)) :
    getListKey (PyVal.dict fields) k = xs := by
  simp [getListKey, pyGetD, h]

theorem getListKey_none {fields : List (String × PyVal)} {k : String}
    (h : pyGet fields k = Option.none) :
    getListKey (PyVal.dict fields) k = [] := by
  simp [getListKey, pyGetD, h]

theorem str_append_assoc (a b c : String) : a ++ b ++ c = a ++ (b ++ c) := by
  apply String.ext
  simp [String.data_append]

theorem toList_infix_mid (a b c : String) : b.toList <:+: (a ++ b ++ c).toList :=
  ⟨a.toList, c.toList, by simp [toList_append]⟩

theorem toList_infix_right (a b : String) : b.toList <:+: (a ++ b).toList :=
  ⟨a.toList, [], by simp [toList_append]⟩

/-- The by-name lookup with an empty filtered result (main.py lines
152-159): the not-found diagnostic and exit 1. -/
theorem byName_empty (nm : String) (ver : Option String) (json : Bool)
    (respond : Respond) (body : PyVal) (h : nm ≠ "")
    (hresp : respond "/schemas" (lookupParams nm ver) = HttpOutcome.ok body)
    (hempty : getListKey body "schemas" = []) :
    get_schema ⟨Option.none, some nm, ver, json⟩ respond =
      ⟨[Event.request "/schemas" (lookupParams nm ver),
        Event.print (noSchemaMsg nm ver)], 1⟩ := by
  unfold get_schema
  simp only [Option.isSome_none, Bool.false_and, Bool.false_eq_true, if_false,
    truthy_some h, if_true, pyOr_some h]
  simp only [hresp, hempty]

/-- The by-name lookup with two or more matches (main.py lines 161-166):
the head entry is validated and displayed, after the count warning. -/
theorem byName_multi (nm : String) (ver : Option String) (json : Bool)
    (respond : Respond) (body : PyVal) (s0 : PyVal) (rest : List PyVal)
    (schema : Schema) (h : nm ≠ "")
    (hresp : respond "/schemas" (lookupParams nm ver) = HttpOutcome.ok body)
    (hlist : getListKey body "schemas" = s0 :: rest) (hrest : rest ≠ [])
    (hval : Schema.model_validate s0 = some schema) :
    get_schema ⟨Option.none, some nm, ver, json⟩ respond =
      finishGetSchema json
        [Event.request "/schemas" (lookupParams nm ver),
         Event.print (foundWarning (s0 :: rest).length)] schema := by
  have hlen : (s0 :: rest).length > 1 := by
    have := List.length_pos.2 hrest
    simp only [List.length_cons]
    omega
  unfold get_schema
  simp only [Option.isSome_none, Bool.false_and, Bool.false_eq_true, if_false,
    truthy_some h, if_true, pyOr_some h]
  simp only [hresp, hlist, hval, if_pos hlen]
  rfl

/-- The log listing with an empty `logs` array (main.py lines 250-254):
the no-logs diagnostic and a normal return. -/
theorem listLogs_empty (args : ListLogsArgs) (respond : Respond) (nm : String)
    (body : PyVal) (hsn : args.schema_name = some nm) (h : nm ≠ "")
    (hresp : respond ("/logs/schema/" ++ nm) [("limit", toString args.limit)] =
      HttpOutcome.ok body)
    (hempty : getListKey body "logs" = []) :
    list_logs args respond =
      ⟨[Event.request ("/logs/schema/" ++ nm) [("limit", toString args.limit)],
        Event.print ("No logs found for schema '" ++ nm ++ "'")], 0⟩ := by
  obtain ⟨sn, full, json, expand, limit⟩ := args
  simp only at hsn hresp
  cases hsn
  unfold list_logs
  simp only [truthy_some h, Bool.not_true, Bool.false_eq_true, if_false,
    pyOr_some h]
  simp only [hresp, hempty]
  simp

/-- C4: for the by-name lookup path of `schemas get`: an empty filtered
result terminates with exit code 1 after printing a message that names the
queried name (and the version when one was supplied); a result with two or
more entries selects the entry at index 0 in server-returned order, prints a
non-fatal warning stating the match count, and finishes with exit code 0 —
it never errors on ambiguity. -/
theorem C4_byname_disambiguation :
    (∀ (nm : String) (ver : Option String) (json : Bool) (respond : Respond)
        (body : PyVal), nm ≠ "" →
        respond "/schemas" (lookupParams nm ver) = HttpOutcome.ok body →
        getListKey body "schemas" = [] →
        get_schema ⟨Option.none, some nm, ver, json⟩ respond =
          ⟨[Event.request "/schemas" (lookupParams nm ver),
            Event.print (noSchemaMsg nm ver)], 1⟩) ∧
    (∀ (nm : String) (ver : Option String),
        nm.toList <:+: (noSchemaMsg nm ver).toList ∧
        (∀ v, ver = some v → v ≠ "" →
          v.toList <:+: (noSchemaMsg nm ver).toList)) ∧
    (∀ (nm : String) (ver : Option String) (json : Bool) (respond : Respond)
        (body s0 : PyVal) (rest : List PyVal) (schema : Schema), nm ≠ "" →
        respond "/schemas" (lookupParams nm ver) = HttpOutcome.ok body →
        getListKey body "schemas" = s0 :: rest → rest ≠ [] →
        Schema.model_validate s0 = some schema →
        get_schema ⟨Option.none, some nm, ver, json⟩ respond =
          finishGetSchema json
            [Event.request "/schemas" (lookupParams nm ver),
             Event.print (foundWarning (s0 :: rest).length)] schema) ∧
    (∀ (json : Bool) (prior : List Event) (schema : Schema),
        (finishGetSchema json prior schema).exitCode = 0) := by
  refine ⟨byName_empty, ?_, byName_multi, ?_⟩
  · intro nm ver
    constructor
    · have hshape : noSchemaMsg nm ver =
          "No schema found with name '" ++ nm ++
            ("'" ++ (if truthy ver then " and version " ++ pyOr ver "" else "")) := by
        unfold noSchemaMsg
        rw [str_append_assoc]
      rw [hshape]
      exact toList_infix_mid _ _ _
    · intro v hv hne
      subst hv
      have hshape : noSchemaMsg nm (some v) =
          ("No schema found with name '" ++ nm ++ "'" ++ " and version ") ++ v := by
        unfold noSchemaMsg
        rw [if_pos (truthy_some hne), pyOr_some hne]
        apply String.ext
        simp [String.data_append]
      rw [hshape]
      exact toList_infix_right _ _
  · intro json prior schema
    unfold finishGetSchema
    split <;> rfl

/-- A raw schema payload as the registry serves one (the id deliberately
upper-case to exercise canonicalization). -/
def exPayload : PyVal := PyVal.dict
  [("id", PyVal.str "123E4567-E89B-12D3-A456-426614174000"),
   ("name", PyVal.str "orders"),
   ("version", PyVal.str "1.0.0"),
   ("description", PyVal.null),
   ("schema_definition", PyVal.dict [("properties", PyVal.dict [])]),
   ("created_at", PyVal.str "2024-01-15T10:30:00"),
   ("updated_at", PyVal.str "2024-01-15T10:30:00")]

/-- The validated form of `exPayload`. -/
def exParsed : Schema :=
  { id := exUUID,
    name := "orders",
    version := "1.0.0",
    description := Option.none,
    schema_definition := [("properties", PyVal.dict [])],
    created_at := exDT,
    updated_at := exDT }

/-- C4 witness: a lookup for "orders" returning zero matches exits 1 with
the naming message, and one returning two matches displays the first match
after a count-2 warning, with exit code 0. -/
theorem C4_byname_disambiguation_witness :
    get_schema ⟨Option.none, some "orders", Option.none, true⟩
      (fun _ _ => HttpOutcome.ok (PyVal.dict [("schemas", PyVal.list [])])) =
      ⟨[Event.request "/schemas" (lookupParams "orders" Option.none),
        Event.print (noSchemaMsg "orders" Option.none)], 1⟩ ∧
    ("orders" : String).toList <:+:
      (noSchemaMsg "orders" Option.none).toList ∧
    get_schema ⟨Option.none, some "orders", Option.none, true⟩
      (fun _ _ => HttpOutcome.ok
        (PyVal.dict [("schemas", PyVal.list [exPayload, exPayload])])) =
      finishGetSchema true
        [Event.request "/schemas" (lookupParams "orders" Option.none),
         Event.print (foundWarning 2)] exParsed ∧
    (finishGetSchema true
      [Event.request "/schemas" (lookupParams "orders" Option.none),
       Event.print (foundWarning 2)] exParsed).exitCode = 0 :=
  ⟨C4_byname_disambiguation.1 "orders" Option.none true _ _ (by decide) rfl rfl,
   (C4_byname_disambiguation.2.1 "orders" Option.none).1,
   C4_byname_disambiguation.2.2.1 "orders" Option.none true _ _ exPayload
     [exPayload] exParsed (by decide) rfl rfl (List.cons_ne_nil _ _) rfl,
   C4_byname_disambiguation.2.2.2 true _ exParsed⟩


/-- The emitted JSON document reproduces the original payload: each field of
the payload reappears under the dump's canonical form — the id up to
lower-casing, the timestamps exactly (the validator accepts the canonical
ISO form the dump emits), name, version, description and schema_definition
verbatim. -/
def SchemaRepro (fields : List (String × PyVal)) (s : Schema) : Prop :=
  (∃ raw, pyGet fields "id" = some (PyVal.str raw) ∧ uuidValid raw = true ∧
      s.id = lowerStr raw) ∧
  pyGet fields "name" = some (PyVal.str s.name) ∧
  pyGet fields "version" = some (PyVal.str s.version) ∧
  (∀ d, s.description = some d →
      pyGet fields "description" = some (PyVal.str d)) ∧
  (s.description = Option.none →
      pyGet fields "description" = Option.none ∨
      pyGet fields "description" = some PyVal.null) ∧
  pyGet fields "schema_definition" = some (PyVal.dict s.schema_definition) ∧
  pyGet fields "created_at" = some (PyVal.str (dtIso s.created_at)) ∧
  pyGet fields "updated_at" = some (PyVal.str (dtIso s.updated_at))

/-- C6: a successfully validated schema emitted in JSON mode reproduces
every field of the original payload in canonical, untruncated identifier and
timestamp form; the dump carries exactly the seven declared fields and no
extras; with the JSON flag set the command's trace never contains a table
event; and the JSON path appends exactly the dump as its single output
event, exiting 0. -/
theorem C6_json_lossless :
    (∀ (p : PyVal) (s : Schema), Schema.model_validate p = some s →
        ∃ fields, p = PyVal.dict fields ∧ SchemaRepro fields s) ∧
    (∀ s : Schema, (Schema.model_dump s).map Prod.fst =
        ["id", "name", "version", "description", "schema_definition",
         "created_at", "updated_at"]) ∧
    (∀ (args : GetSchemaArgs) (respond : Respond), args.json_output = true →
        ∀ e ∈ (get_schema args respond).events, e.isTable = false) ∧
    (∀ (prior : List Event) (s : Schema),
        finishGetSchema true prior s =
          ⟨prior ++ [Event.printJson (PyVal.dict (Schema.model_dump s))], 0⟩) := by
  refine ⟨?_, ?_, ?_, ?_⟩
  · intro p s h
    obtain ⟨fields, rfl, hid, hnm, hver, hdsc, hsd, hca, hua⟩ :=
      Schema.model_validate_inv h
    obtain ⟨raw, hraw, hvalid, heq⟩ := uuidField_some hid
    obtain ⟨hd1, hd2⟩ := optStrField_some hdsc
    exact ⟨fields, rfl, ⟨raw, hraw, hvalid, heq⟩, strField_some hnm,
      strField_some hver, hd1, hd2, dictField_some hsd,
      dtField_some hca, dtField_some hua⟩
  · intro s
    rfl
  · intro args respond hjson e he
    obtain ⟨sid, aname, aver, ajson⟩ := args
    simp only at hjson
    subst hjson
    unfold get_schema finishGetSchema at he
    split at he
    · simp only [List.mem_singleton] at he
      subst he
      rfl
    · cases sid with
      | some s =>
          simp only at he
          cases hr : respond ("/schemas/" ++ s) [] with
          | err msg =>
              simp only [hr] at he
              split at he
              all_goals simp only [List.mem_append, List.mem_singleton,
                List.mem_cons, List.not_mem_nil, or_false, false_or] at he
              · rcases he with rfl | rfl <;> rfl
              · subst he; rfl
          | ok body =>
              simp only [hr] at he
              cases hv : Schema.model_validate body with
              | none =>
                  simp only [hv] at he
                  split at he
                  all_goals simp only [List.mem_append, List.mem_singleton,
                    List.mem_cons, List.not_mem_nil, or_false, false_or] at he
                  · rcases he with rfl | rfl <;> rfl
                  · subst he; rfl
              | some schema =>
                  simp only [hv, if_true] at he
                  split at he
                  all_goals simp only [List.mem_append, List.mem_singleton,
                    List.mem_cons, List.not_mem_nil, or_false, false_or] at he
                  · rcases he with (rfl | rfl) | rfl <;> rfl
                  · rcases he with rfl | rfl <;> rfl
      | none =>
          simp only at he
          split at he
          · cases hr : respond "/schemas" (lookupParams (pyOr aname "") aver) with
            | err msg =>
                simp only [hr] at he
                simp only [List.mem_singleton] at he
                subst he
                rfl
            | ok body =>
                simp only [hr] at he
                cases hk : getListKey body "schemas" with
                | nil =>
                    simp only [hk] at he
                    simp only [List.mem_cons, List.mem_singleton,
                      List.not_mem_nil, or_false] at he
                    rcases he with rfl | rfl <;> rfl
                | cons s0 rest =>
                    simp only [hk] at he
                    cases hv : Schema.model_validate s0 with
                    | none =>
                        simp only [hv] at he
                        simp only [List.mem_singleton] at he
                        subst he
                        rfl
                    | some schema =>
                        simp only [hv, if_true] at he
                        split at he
                        all_goals simp only [List.mem_append,
                          List.mem_singleton, List.mem_cons,
                          List.not_mem_nil, or_false, false_or] at he
                        · rcases he with (rfl | rfl) | rfl <;> rfl
                        · rcases he with rfl | rfl <;> rfl
          · simp only [List.mem_singleton] at he
            subst he
            rfl
  · intro prior s
    rfl

/-- C6 witness: the round-trip and the JSON short-circuit evaluated on a
concrete payload and a concrete trace event. -/
theorem C6_json_lossless_witness :
    (∃ fields, exPayload = PyVal.dict fields ∧ SchemaRepro fields exParsed) ∧
    finishGetSchema true [] exParsed =
      ⟨[Event.printJson (PyVal.dict (Schema.model_dump exParsed))], 0⟩ ∧
    Event.isTable (Event.print "Error: Cannot specify both --id and --name")
      = false :=
  ⟨C6_json_lossless.1 exPayload exParsed rfl,
   C6_json_lossless.2.2.2 [] exParsed,
   C6_json_lossless.2.2.1
     ⟨some exUUID, some "orders", Option.none, true⟩
     (fun _ _ => HttpOutcome.err "nope") rfl
     (Event.print "Error: Cannot specify both --id and --name")
     (List.Mem.head _)⟩

/-- C8: a log listing whose response carries an empty `logs` array produces
exactly the no-logs message naming the queried schema — no table and no JSON
fragment — and exits 0. -/
theorem C8_empty_logs :
    ∀ (args : ListLogsArgs) (respond : Respond) (nm : String)
      (fields : List (String × PyVal)),
      args.schema_name = some nm → nm ≠ "" →
      respond ("/logs/schema/" ++ nm) [("limit", toString args.limit)] =
        HttpOutcome.ok (PyVal.dict fields) →
      pyGet fields "logs" = some (PyVal.list []) →
      list_logs args respond =
        ⟨[Event.request ("/logs/schema/" ++ nm) [("limit", toString args.limit)],
          Event.print ("No logs found for schema '" ++ nm ++ "'")], 0⟩ ∧
      nm.toList <:+: ("No logs found for schema '" ++ nm ++ "'").toList := by
  intro args respond nm fields hsn hne hresp hlogs
  refine ⟨listLogs_empty args respond nm _ hsn hne hresp
    (getListKey_some_list hlogs), ?_⟩
  exact toList_infix_mid _ _ _

/-- C8 witness: the empty-logs outcome for schema "orders". -/
theorem C8_empty_logs_witness :
    list_logs ⟨some "orders", false, false, false, 10⟩
      (fun _ _ => HttpOutcome.ok (PyVal.dict [("logs", PyVal.list [])])) =
      ⟨[Event.request ("/logs/schema/" ++ "orders") [("limit", toString (10 : Int))],
        Event.print ("No logs found for schema '" ++ "orders" ++ "'")], 0⟩ ∧
    ("orders" : String).toList <:+:
      ("No logs found for schema '" ++ "orders" ++ "'").toList :=
  C8_empty_logs ⟨some "orders", false, false, false, 10⟩ _ "orders" _
    rfl (by decide) rfl rfl

/-- C9: each transport-wrapper call issues exactly one request; a non-2xx
response produces a status error carrying the numeric status and body after
one formatted diagnostic line; a request that cannot complete produces a
transport error carrying the cause after one diagnostic line; a 2xx response
is returned unchanged with nothing printed — the wrapper never swallows an
error and never retries. -/
theorem C9_transport_wrapper :
    (∀ o, (APIClient.get o).requests = 1 ∧ (APIClient.post o).requests = 1) ∧
    (∀ st body, ¬(200 ≤ st ∧ st < 300) →
        APIClient.get (RawOutcome.response st body) =
          ⟨1, ["X HTTP " ++ toString st ++ ": " ++ body],
           Except.error (ApiError.statusError st body)⟩ ∧
        APIClient.post (RawOutcome.response st body) =
          ⟨1, ["✗ HTTP " ++ toString st ++ ": " ++ body],
           Except.error (ApiError.statusError st body)⟩) ∧
    (∀ cause,
        APIClient.get (RawOutcome.failure cause) =
          ⟨1, ["X Request failed: " ++ cause],
           Except.error (ApiError.requestError cause)⟩ ∧
        APIClient.post (RawOutcome.failure cause) =
          ⟨1, ["✗ Request failed: " ++ cause],
           Except.error (ApiError.requestError cause)⟩) ∧
    (∀ st body, 200 ≤ st ∧ st < 300 →
        APIClient.get (RawOutcome.response st body) =
          ⟨1, [], Except.ok (st, body)⟩ ∧
        APIClient.post (RawOutcome.response st body) =
          ⟨1, [], Except.ok (st, body)⟩) := by
  refine ⟨?_, ?_, ?_, ?_⟩
  · intro o
    cases o with
    | response st body =>
        refine ⟨?_, ?_⟩
        · simp only [APIClient.get]
          split <;> rfl
        · simp only [APIClient.post]
          split <;> rfl
    | failure cause => exact ⟨rfl, rfl⟩
  · intro st body h
    refine ⟨?_, ?_⟩
    · simp only [APIClient.get]
      rw [if_neg h]
    · simp only [APIClient.post]
      rw [if_neg h]
  · intro cause
    exact ⟨rfl, rfl⟩
  · intro st body h
    refine ⟨?_, ?_⟩
    · simp only [APIClient.get]
      rw [if_pos h]
    · simp only [APIClient.post]
      rw [if_pos h]

/-- C9 witness: the wrapper evaluated on a 404 with a body, a connection
failure, and a 200. -/
theorem C9_transport_wrapper_witness :
    (APIClient.get (RawOutcome.response 404 "missing")).requests = 1 ∧
    APIClient.get (RawOutcome.response 404 "missing") =
      ⟨1, ["X HTTP " ++ toString 404 ++ ": " ++ "missing"],
       Except.error (ApiError.statusError 404 "missing")⟩ ∧
    APIClient.post (RawOutcome.failure "connection refused") =
      ⟨1, ["✗ Request failed: " ++ "connection refused"],
       Except.error (ApiError.requestError "connection refused")⟩ ∧
    APIClient.get (RawOutcome.response 200 "body") =
      ⟨1, [], Except.ok (200, "body")⟩ :=
  ⟨(C9_transport_wrapper.1 (RawOutcome.response 404 "missing")).1,
   (C9_transport_wrapper.2.1 404 "missing" (by omega)).1,
   (C9_transport_wrapper.2.2.1 "connection refused").2,
   (C9_transport_wrapper.2.2.2 200 "body" (by omega)).1⟩

/-- C10: a listing body without its expected top-level key behaves exactly
as if the key held an empty list: `getListKey` yields the empty list either
way, `schemas list` (both entry points) prints its no-schemas message and
exits 0, the targeted by-name lookup exits 1 with its not-found message, and
`logs list` prints its no-logs message and exits 0 — no key or validation
error escapes. -/
theorem C10_missing_listing_key :
    (∀ (fields : List (String × PyVal)) (k : String),
        pyGet fields k = Option.none →
        getListKey (PyVal.dict fields) k = [] ∧
        getListKey (PyVal.dict (fields ++ [(k, PyVal.list [])])) k = []) ∧
    (∀ (full json : Bool) (respond : Respond)
        (fields : List (String × PyVal)),
        respond "/schemas" [] = HttpOutcome.ok (PyVal.dict fields) →
        pyGet fields "schemas" = Option.none →
        list_schemas full json respond =
          ⟨[Event.request "/schemas" [], Event.print "No schemas found"], 0⟩ ∧
        mig_list_schemas full json respond =
          ⟨[Event.request "/schemas" [], Event.print "No schemas found"], 0⟩) ∧
    (∀ (nm : String) (ver : Option String) (json : Bool) (respond : Respond)
        (fields : List (String × PyVal)), nm ≠ "" →
        respond "/schemas" (lookupParams nm ver) =
          HttpOutcome.ok (PyVal.dict fields) →
        pyGet fields "schemas" = Option.none →
        get_schema ⟨Option.none, some nm, ver, json⟩ respond =
          ⟨[Event.request "/schemas" (lookupParams nm ver),
            Event.print (noSchemaMsg nm ver)], 1⟩) ∧
    (∀ (args : ListLogsArgs) (respond : Respond) (nm : String)
        (fields : List (String × PyVal)),
        args.schema_name = some nm → nm ≠ "" →
        respond ("/logs/schema/" ++ nm) [("limit", toString args.limit)] =
          HttpOutcome.ok (PyVal.dict fields) →
        pyGet fields "logs" = Option.none →
        list_logs args respond =
          ⟨[Event.request ("/logs/schema/" ++ nm)
              [("limit", toString args.limit)],
            Event.print ("No logs found for schema '" ++ nm ++ "'")], 0⟩) := by
  refine ⟨?_, ?_, ?_, ?_⟩
  · intro fields k h
    refine ⟨getListKey_none h, getListKey_some_list ?_⟩
    unfold pyGet at h ⊢
    rw [List.find?_append]
    cases hf : List.find? (fun p => p.1 == k) fields with
    | some p =>
        rw [hf] at h
        simp at h
    | none =>
        simp [List.find?]
  · intro full json respond fields hresp hkey
    have hempty := getListKey_none hkey
    constructor
    · unfold list_schemas
      simp only [hresp, hempty]
    · unfold mig_list_schemas
      simp only [hresp, hempty]
  · intro nm ver json respond fields hne hresp hkey
    exact byName_empty nm ver json respond _ hne hresp (getListKey_none hkey)
  · intro args respond nm fields hsn hne hresp hkey
    exact listLogs_empty args respond nm _ hsn hne hresp (getListKey_none hkey)

/-- C10 witness: a body whose only key is unrelated, run through all four
commands. -/
theorem C10_missing_listing_key_witness :
    getListKey (PyVal.dict [("other", PyVal.int 1)]) "schemas" = [] ∧
    list_schemas false false
      (fun _ _ => HttpOutcome.ok (PyVal.dict [("other", PyVal.int 1)])) =
      ⟨[Event.request "/schemas" [], Event.print "No schemas found"], 0⟩ ∧
    mig_list_schemas false false
      (fun _ _ => HttpOutcome.ok (PyVal.dict [("other", PyVal.int 1)])) =
      ⟨[Event.request "/schemas" [], Event.print "No schemas found"], 0⟩ ∧
    get_schema ⟨Option.none, some "orders", Option.none, false⟩
      (fun _ _ => HttpOutcome.ok (PyVal.dict [("other", PyVal.int 1)])) =
      ⟨[Event.request "/schemas" (lookupParams "orders" Option.none),
        Event.print (noSchemaMsg "orders" Option.none)], 1⟩ ∧
    list_logs ⟨some "orders", false, false, false, 10⟩
      (fun _ _ => HttpOutcome.ok (PyVal.dict [("other", PyVal.int 1)])) =
      ⟨[Event.request ("/logs/schema/" ++ "orders")
          [("limit", toString (10 : Int))],
        Event.print ("No logs found for schema '" ++ "orders" ++ "'")], 0⟩ :=
  ⟨(C10_missing_listing_key.1 [("other", PyVal.int 1)] "schemas" rfl).1,
   (C10_missing_listing_key.2.1 false false _ [("other", PyVal.int 1)]
     rfl rfl).1,
   (C10_missing_listing_key.2.1 false false _ [("other", PyVal.int 1)]
     rfl rfl).2,
   C10_missing_listing_key.2.2.1 "orders" Option.none false _
     [("other", PyVal.int 1)] (by decide) rfl rfl,
   C10_missing_listing_key.2.2.2 ⟨some "orders", false, false, false, 10⟩ _
     "orders" [("other", PyVal.int 1)] rfl (by decide) rfl rfl⟩
